import Mathlib

/-!
Verification development for the bounded-refinement quality-gate loop of the
multi-agent post-generator repository.

The embedding translates, from `src/workflows/postgenerator_workflow.py`:
  - `merge_analysis_results` (threshold checks, feedback assembly),
  - `route_to_specialized_writer` (static dispatch table),
  - `should_refine_enhanced` (conditional-edge routing function),
  - `router_node_enhanced` (the router graph node),
and, from `src/api/main.py`:
  - the session-id construction of `create_session` and the
    `session_id.split("-")[1]` user-id recovery of `generate_post`.

The loosely typed `PostGeneratorState` dict (`TypedDict` with `total=False`)
is modelled as a structure of `Option` fields; Python's `dict.get(k, d)`
becomes `Option.getD` / association-list lookup.  Python floats compared
against fixed decimal thresholds are modelled as rationals; Python ints as
`Int`.  Environment-read configuration (the two overridable thresholds and
`MAX_REFINEMENT_LOOPS`) is an explicit `Env` record whose default values are
the code's default strings.
-/

namespace PostGen

/-- Environment-derived configuration read by the workflow:
`FAITHFULNESS_THRESHOLD`, `ANSWER_RELEVANCY_THRESHOLD` (defaults "0.80") and
`MAX_REFINEMENT_LOOPS` (default "1"). -/
structure Env where
  faithfulness_threshold : ℚ
  answer_relevancy_threshold : ℚ
  max_refinement_loops : Int
deriving DecidableEq

/-- The configuration in force when no environment override is present. -/
def defaultEnv : Env := ⟨mkRat 80 100, mkRat 80 100, 1⟩

/-- Hard-coded sentiment threshold from `merge_analysis_results`. -/
def sentiment_threshold : ℚ := mkRat 70 100

/-- Hard-coded SEO readability threshold from `merge_analysis_results`. -/
def seo_threshold : ℚ := mkRat 75 100

/-- Shallow embedding of the `PostGeneratorState` TypedDict (total=False):
every key may be absent, so each field is an `Option`; `topic` is kept as a
plain string because `merge_analysis_results` reads `state["topic"]`
directly (it is a required caller input).  Nested dicts whose values are
read numerically are association lists from key to rational score;
`quality_checks` is an association list from check name to boolean. -/
structure PostGeneratorState where
  topic : String
  tone : Option String
  platform : Option String
  content_type : Option String
  draft : Option String
  scores : Option (List (String × ℚ))
  sentiment_analysis : Option (List (String × ℚ))
  seo_metrics : Option (List (String × ℚ))
  quality_checks : Option (List (String × Bool))
  needs_refinement : Option Bool
  feedback : Option String
  refinement_count : Option Int
  max_refinements : Option Int
  final_post : Option String
  human_force_publish : Option Bool
deriving DecidableEq

/-- The state with no keys set (fresh dict); `topic` defaults to `""`. -/
def emptyState : PostGeneratorState :=
  ⟨"", none, none, none, none, none, none, none, none, none, none, none,
   none, none, none⟩

/-- Python `d.get(k, dflt)` on a score dict. -/
def dictGetQ (d : List (String × ℚ)) (k : String) (dflt : ℚ) : ℚ :=
  (d.lookup k).getD dflt

/-- Python `sep.join(parts)`. -/
def joinWith (sep : String) : List String → String
  | [] => ""
  | [x] => x
  | x :: y :: xs => x ++ sep ++ joinWith sep (y :: xs)

/-- The feedback string assembled by `merge_analysis_results` from the four
check booleans: one remediation sentence appended per failed check, joined
with a space, or the fixed all-passed message. -/
def build_feedback (s : PostGeneratorState) (cf cr cs cseo : Bool) : String :=
  let feedback_parts : List String :=
    (if !cf then ["Improve factual accuracy based on source materials."] else []) ++
    (if !cr then ["Stay more focused on the topic: " ++ s.topic] else []) ++
    (if !cs then ["Adjust tone to better match requested: " ++ s.tone.getD "professional"] else []) ++
    (if !cseo then ["Improve readability and keyword usage for better engagement."] else [])
  if feedback_parts ≠ [] then joinWith " " feedback_parts
  else "All quality checks passed!"

/-- Embedding of `merge_analysis_results`: reads the three analysis dicts
with missing keys defaulting to 0, evaluates the four threshold checks,
stores `quality_checks`, `needs_refinement = not all_pass`, and the
feedback string. -/
def merge_analysis_results (env : Env) (s : PostGeneratorState) : PostGeneratorState :=
  let fact_scores := s.scores.getD []
  let sentiment := s.sentiment_analysis.getD []
  let seo := s.seo_metrics.getD []
  let check_faith : Bool := decide (env.faithfulness_threshold ≤ dictGetQ fact_scores "faithfulness" 0)
  let check_rel : Bool := decide (env.answer_relevancy_threshold ≤ dictGetQ fact_scores "answer_relevancy" 0)
  let check_sent : Bool := decide (sentiment_threshold ≤ dictGetQ sentiment "sentiment_score" 0)
  let check_seo : Bool := decide (seo_threshold ≤ dictGetQ seo "readability_score" 0)
  let checks : List (String × Bool) :=
    [("faithfulness", check_faith), ("relevancy", check_rel),
     ("sentiment", check_sent), ("seo", check_seo)]
  let all_pass := check_faith && check_rel && check_sent && check_seo
  { s with
    needs_refinement := some (!all_pass)
    feedback := some (build_feedback s check_faith check_rel check_sent check_seo)
    quality_checks := some checks }

/-- Embedding of `route_to_specialized_writer`: static dispatch on
`platform` (default "linkedin") and `content_type` (default "standard"). -/
def route_to_specialized_writer (s : PostGeneratorState) : String :=
  let platform := s.platform.getD "linkedin"
  let content_type := s.content_type.getD "standard"
  if platform = "linkedin" then
    if content_type = "technical" then "technical_linkedin_writer"
    else if content_type = "thought_leadership" then "thought_leader_writer"
    else "standard_linkedin_writer"
  else if platform = "twitter" then
    if content_type = "thread" then "twitter_thread_writer"
    else "twitter_writer"
  else "general_writer"

/-- Embedding of `should_refine_enhanced`, the conditional-edge routing
function: human override first, then the critical-failure count over the
`quality_checks` items, then the normal refinement condition. -/
def should_refine_enhanced (env : Env) (s : PostGeneratorState) : String :=
  if s.human_force_publish.getD false then "end"
  else
    let needs_refinement := s.needs_refinement.getD false
    let refinement_count := s.refinement_count.getD 0
    let max_refinements := s.max_refinements.getD env.max_refinement_loops
    let quality_checks := s.quality_checks.getD []
    let critical_failures := quality_checks.countP
      (fun kv => (decide (kv.1 = "faithfulness") || decide (kv.1 = "relevancy")) && !kv.2)
    if 0 < critical_failures ∧ refinement_count < max_refinements then "refine"
    else if needs_refinement = false ∨ max_refinements ≤ refinement_count then "end"
    else "refine"

/-- Embedding of `router_node_enhanced`, the router graph node: on pass or
cap it copies `draft` into `final_post` (clearing `needs_refinement` on the
cap branch), otherwise it increments `refinement_count`. -/
def router_node_enhanced (env : Env) (s : PostGeneratorState) : PostGeneratorState :=
  let needs_refinement := s.needs_refinement.getD false
  let refinement_count := s.refinement_count.getD 0
  let max_refinements := s.max_refinements.getD env.max_refinement_loops
  if needs_refinement = false then
    { s with final_post := some (s.draft.getD "") }
  else if max_refinements ≤ refinement_count then
    { s with final_post := some (s.draft.getD ""), needs_refinement := some false }
  else
    { s with refinement_count := some (refinement_count + 1) }

/-- The refinement counter of a state (`state.get("refinement_count", 0)`). -/
def rcOf (s : PostGeneratorState) : Int := s.refinement_count.getD 0

/-- The refinement cap of a state
(`state.get("max_refinements", int(os.getenv("MAX_REFINEMENT_LOOPS", "1")))`). -/
def mxOf (env : Env) (s : PostGeneratorState) : Int :=
  s.max_refinements.getD env.max_refinement_loops

/-- Remediation sentence table, following the spec's wording for the
quality-gate feedback: one sentence per check name, in the code's wording
(the relevancy and sentiment sentences embed the state's topic and tone). -/
def remediation_sentence (s : PostGeneratorState) (check : String) : String :=
  if check = "faithfulness" then "Improve factual accuracy based on source materials."
  else if check = "relevancy" then "Stay more focused on the topic: " ++ s.topic
  else if check = "sentiment" then "Adjust tone to better match requested: " ++ s.tone.getD "professional"
  else "Improve readability and keyword usage for better engagement."

/-- Feedback as the spec words it, for comparison with the code's
construction: concatenate the remediation sentence of each failed check in
the order the check list carries (faithfulness, relevancy, sentiment, seo),
or a fixed all-passed message when nothing failed. -/
def spec_feedback (s : PostGeneratorState) (checks : List (String × Bool)) : String :=
  let failed := checks.filterMap
    (fun kv => if kv.2 then none else some (remediation_sentence s kv.1))
  if failed = [] then "All quality checks passed!" else joinWith " " failed

/-- The state after the merge step in the spec's second scenario: scores
faithfulness 0.5 and answer_relevancy 0.9, sentiment 0.75, readability 0.78,
`refinement_count = 0`, `max_refinements = 1`, no human override. -/
def specScenarioState : PostGeneratorState :=
  { emptyState with
    topic := "AI advancements"
    draft := some "a draft"
    scores := some [("faithfulness", mkRat 5 10), ("answer_relevancy", mkRat 9 10)]
    sentiment_analysis := some [("sentiment_score", mkRat 75 100)]
    seo_metrics := some [("readability_score", mkRat 78 100)]
    refinement_count := some 0
    max_refinements := some 1 }

/-- A state with a critical quality-check failure and spare refinement
budget. -/
def criticalFailureState : PostGeneratorState :=
  { emptyState with
    needs_refinement := some true
    quality_checks := some [("faithfulness", false), ("relevancy", true)]
    refinement_count := some 0
    max_refinements := some 2 }

/-- A state with the human override set and everything else failing. -/
def forcePublishState : PostGeneratorState :=
  { emptyState with
    human_force_publish := some true
    needs_refinement := some true
    quality_checks := some [("faithfulness", false), ("relevancy", false)]
    refinement_count := some 0
    max_refinements := some 5 }

/-- A state with a zero refinement budget and failing critical checks. -/
def zeroMaxState : PostGeneratorState :=
  { emptyState with
    needs_refinement := some true
    quality_checks := some [("faithfulness", false), ("relevancy", false),
                            ("sentiment", false), ("seo", false)]
    refinement_count := some 0
    max_refinements := some 0 }

/-- A twitter-thread request. -/
def twitterThreadState : PostGeneratorState :=
  { emptyState with platform := some "twitter", content_type := some "thread" }

/-- A request for a platform outside the dispatch table. -/
def unknownPlatformState : PostGeneratorState :=
  { emptyState with platform := some "mastodon", content_type := some "thread" }

/-- A failing state at the start of its refinement budget, used to iterate
the router. -/
def iterStartState : PostGeneratorState :=
  { emptyState with
    needs_refinement := some true
    refinement_count := some 0
    max_refinements := some 1 }

end PostGen

namespace Session

/-- Python `s.split(sep)` for a one-character separator, on strings viewed
as lists of characters: splitting on every occurrence, keeping empty
pieces, and returning `[[]]` on the empty string. -/
def splitOnChar (sep : Char) : List Char → List (List Char)
  | [] => [[]]
  | c :: cs =>
    if c = sep then [] :: splitOnChar sep cs
    else
      match splitOnChar sep cs with
      | [] => [[c]]
      | p :: ps => (c :: p) :: ps

/-- The session id built by `create_session` in `src/api/main.py`:
`f"session-{request.user_id}-{uuid.uuid4().hex[:8]}"`, with the random hex
suffix abstracted as an arbitrary character list. -/
def create_session_id (user_id hex : List Char) : List Char :=
  "session".data ++ '-' :: (user_id ++ '-' :: hex)

/-- The user-id recovery of `generate_post` in `src/api/main.py`:
`request.session_id.split("-")[1]`, with `none` playing the role of the
caught `IndexError`. -/
def extract_user_id (session_id : List Char) : Option (List Char) :=
  (splitOnChar '-' session_id).get? 1

end Session

namespace PostGen

/-- C1: the claim that `final_post` is set exactly once, on the iteration
where `should_refine_enhanced` returns "end", fails on the code.  At the
spec's own scenario (faithfulness 0.5, `refinement_count = 0`,
`max_refinements = 1`) the merge step flags refinement, the router node
increments the counter to 1 without touching `final_post`, and the routing
function — evaluated on the router's output state — then returns "end"
because the incremented counter has already reached the cap, so the run
terminates with `final_post` never written.  (The pre-router state would
route "refine", as the spec's scenario expects.) -/
theorem refinement_cap_drops_final_post :
    (merge_analysis_results defaultEnv specScenarioState).needs_refinement = some true
    ∧ should_refine_enhanced defaultEnv (merge_analysis_results defaultEnv specScenarioState) = "refine"
    ∧ (router_node_enhanced defaultEnv (merge_analysis_results defaultEnv specScenarioState)).refinement_count = some 1
    ∧ (router_node_enhanced defaultEnv (merge_analysis_results defaultEnv specScenarioState)).final_post = none
    ∧ should_refine_enhanced defaultEnv
        (router_node_enhanced defaultEnv (merge_analysis_results defaultEnv specScenarioState)) = "end" := by
  decide

/-- C2: whenever the human override is unset, some critical check
(faithfulness or relevancy) is recorded false in `quality_checks`, and the
refinement counter is below the cap, `should_refine_enhanced` returns
"refine". -/
theorem should_refine_critical_failure (env : Env) (s : PostGeneratorState)
    (hover : s.human_force_publish.getD false = false)
    (hcrit : ("faithfulness", false) ∈ s.quality_checks.getD []
      ∨ ("relevancy", false) ∈ s.quality_checks.getD [])
    (hlt : rcOf s < mxOf env s) :
    should_refine_enhanced env s = "refine" := by
  simp only [rcOf, mxOf] at hlt
  have hpos : 0 < (s.quality_checks.getD []).countP
      (fun kv => (decide (kv.1 = "faithfulness") || decide (kv.1 = "relevancy")) && !kv.2) := by
    rw [List.countP_pos_iff]
    rcases hcrit with h | h
    · exact ⟨_, h, by simp⟩
    · exact ⟨_, h, by simp⟩
  simp only [should_refine_enhanced, hover, Bool.false_eq_true, if_false]
  rw [if_pos ⟨hpos, hlt⟩]

/-- C2 witness: at a concrete state with a failed faithfulness check,
counter 0 and cap 2, routing refines. -/
theorem should_refine_critical_failure_witness :
    should_refine_enhanced defaultEnv criticalFailureState = "refine" :=
  should_refine_critical_failure defaultEnv criticalFailureState rfl
    (Or.inl (by decide)) (by decide)

/-- C6: when `human_force_publish` is true, `should_refine_enhanced`
returns "end" regardless of every other field of the state. -/
theorem should_refine_force_publish (env : Env) (s : PostGeneratorState)
    (h : s.human_force_publish = some true) :
    should_refine_enhanced env s = "end" := by
  simp [should_refine_enhanced, h]

/-- C6 witness: the override ends the run even with all checks failing and
budget left. -/
theorem should_refine_force_publish_witness :
    should_refine_enhanced defaultEnv forcePublishState = "end" :=
  should_refine_force_publish defaultEnv forcePublishState rfl

/-- C7: with `max_refinements = 0` and `refinement_count = 0` the routing
function returns "end" at once, whatever the quality checks say. -/
theorem should_refine_zero_max (env : Env) (s : PostGeneratorState)
    (hm : s.max_refinements = some 0) (hr : s.refinement_count = some 0) :
    should_refine_enhanced env s = "end" := by
  simp [should_refine_enhanced, hm, hr]

/-- C7 witness: zero budget ends immediately even with all four checks
failing. -/
theorem should_refine_zero_max_witness :
    should_refine_enhanced defaultEnv zeroMaxState = "end" :=
  should_refine_zero_max defaultEnv zeroMaxState rfl rfl

end PostGen

namespace PostGen

/-- C3: when an expected metric key is absent from its score mapping, the
merge step treats the score as 0, so the corresponding entry of
`quality_checks` is false whenever the matching threshold is positive (as
all the configured thresholds are); the lookup-with-default never raises,
which the embedding reflects by being a total function. -/
theorem merge_missing_scores (env : Env) (s : PostGeneratorState)
    (hf : 0 < env.faithfulness_threshold) (hr : 0 < env.answer_relevancy_threshold) :
    ((s.scores.getD []).lookup "faithfulness" = none →
      ((merge_analysis_results env s).quality_checks.getD []).lookup "faithfulness" = some false)
    ∧ ((s.scores.getD []).lookup "answer_relevancy" = none →
      ((merge_analysis_results env s).quality_checks.getD []).lookup "relevancy" = some false)
    ∧ ((s.sentiment_analysis.getD []).lookup "sentiment_score" = none →
      ((merge_analysis_results env s).quality_checks.getD []).lookup "sentiment" = some false)
    ∧ ((s.seo_metrics.getD []).lookup "readability_score" = none →
      ((merge_analysis_results env s).quality_checks.getD []).lookup "seo" = some false) := by
  refine ⟨fun h => ?_, fun h => ?_, fun h => ?_, fun h => ?_⟩ <;>
    simp [merge_analysis_results, dictGetQ, h, List.lookup_cons, hf.not_le, hr.not_le] <;>
    decide

/-- C3 witness: with the default thresholds and a state carrying no score
mappings at all, the faithfulness check comes out false. -/
theorem merge_missing_scores_witness :
    ((merge_analysis_results defaultEnv emptyState).quality_checks.getD []).lookup "faithfulness"
      = some false :=
  (merge_missing_scores defaultEnv emptyState (by decide) (by decide)).1 (by decide)

/-- C4: after the merge step, `needs_refinement` is false exactly when
every entry of the freshly computed `quality_checks` is true, for every
input state and configuration. -/
theorem merge_needs_refinement_iff (env : Env) (s : PostGeneratorState) :
    (merge_analysis_results env s).needs_refinement = some false ↔
      ∀ kv ∈ ((merge_analysis_results env s).quality_checks.getD []), kv.2 = true := by
  simp [merge_analysis_results, Bool.and_eq_true]
  tauto

/-- Helper: the code's sequential if-append construction of the feedback
string agrees with the spec-side formulation over the four-entry check
list. -/
theorem build_feedback_eq_spec (s : PostGeneratorState) (cf cr cs cseo : Bool) :
    build_feedback s cf cr cs cseo =
      spec_feedback s [("faithfulness", cf), ("relevancy", cr), ("sentiment", cs), ("seo", cseo)] := by
  cases cf <;> cases cr <;> cases cs <;> cases cseo <;> rfl

/-- C9: the merge step's feedback is the concatenation, in the fixed order
faithfulness, relevancy, sentiment, seo, of one remediation sentence per
failed check, and the fixed all-passed message when every check passes. -/
theorem merge_feedback_structure (env : Env) (s : PostGeneratorState) :
    (merge_analysis_results env s).feedback =
      some (spec_feedback s ((merge_analysis_results env s).quality_checks.getD [])) := by
  simp only [merge_analysis_results, Option.getD_some]
  exact congrArg some (build_feedback_eq_spec s _ _ _ _)

/-- C8: `route_to_specialized_writer` maps the twitter/thread pair to
"twitter_thread_writer", and any platform other than "linkedin" and
"twitter" to "general_writer" whatever the content type. -/
theorem route_writer_table :
    (∀ s : PostGeneratorState, s.platform = some "twitter" → s.content_type = some "thread" →
      route_to_specialized_writer s = "twitter_thread_writer")
    ∧ (∀ (s : PostGeneratorState) (p : String), s.platform = some p →
      p ≠ "linkedin" → p ≠ "twitter" → route_to_specialized_writer s = "general_writer") := by
  constructor
  · intro s hp hc
    simp [route_to_specialized_writer, hp, hc]
  · intro s p hp h1 h2
    simp [route_to_specialized_writer, hp, h1, h2]

/-- C8 witness: the table at a twitter thread request and at an unknown
platform. -/
theorem route_writer_table_witness :
    route_to_specialized_writer twitterThreadState = "twitter_thread_writer"
    ∧ route_to_specialized_writer unknownPlatformState = "general_writer" :=
  ⟨route_writer_table.1 twitterThreadState rfl rfl,
   route_writer_table.2 unknownPlatformState "mastodon" rfl (by decide) (by decide)⟩

/-- Helper: the router never writes `max_refinements`. -/
theorem router_max_refinements_eq (env : Env) (s : PostGeneratorState) :
    (router_node_enhanced env s).max_refinements = s.max_refinements := by
  simp only [router_node_enhanced]
  split_ifs <;> rfl

/-- Helper: one router step either leaves the counter unchanged or
increments it, and it increments only strictly below the cap. -/
theorem router_rc_cases (env : Env) (s : PostGeneratorState) :
    rcOf (router_node_enhanced env s) = rcOf s
    ∨ (rcOf (router_node_enhanced env s) = rcOf s + 1 ∧ rcOf s < mxOf env s) := by
  simp only [router_node_enhanced, rcOf, mxOf]
  split_ifs with h1 h2
  · left; rfl
  · left; rfl
  · right
    exact ⟨rfl, not_le.mp h2⟩

/-- Helper: one router step preserves the bound of the counter by the
cap. -/
theorem router_rc_le (env : Env) (s : PostGeneratorState) (h : rcOf s ≤ mxOf env s) :
    rcOf (router_node_enhanced env s) ≤ mxOf env (router_node_enhanced env s) := by
  have hm : mxOf env (router_node_enhanced env s) = mxOf env s := by
    simp [mxOf, router_max_refinements_eq]
  rw [hm]
  rcases router_rc_cases env s with h1 | ⟨h1, h2⟩ <;> omega

/-- C5: the refinement counter is non-decreasing under the router, the
router increments it only while it is strictly below the cap, and from any
state within the cap it stays within the cap however many times the router
runs. -/
theorem router_refinement_count_bounded (env : Env) (s : PostGeneratorState)
    (_h0 : 0 ≤ rcOf s) (_h1 : 0 ≤ mxOf env s) :
    rcOf s ≤ rcOf (router_node_enhanced env s)
    ∧ (rcOf (router_node_enhanced env s) ≠ rcOf s → rcOf s < mxOf env s)
    ∧ (rcOf s ≤ mxOf env s →
        ∀ n : ℕ, rcOf ((router_node_enhanced env)^[n] s) ≤ mxOf env s) := by
  refine ⟨?_, ?_, ?_⟩
  · rcases router_rc_cases env s with h | ⟨h, _⟩ <;> omega
  · intro hne
    rcases router_rc_cases env s with h | ⟨h, hlt⟩
    · exact absurd h hne
    · exact hlt
  · intro hle n
    have key : ∀ m : ℕ, rcOf ((router_node_enhanced env)^[m] s) ≤ mxOf env s
        ∧ mxOf env ((router_node_enhanced env)^[m] s) = mxOf env s := by
      intro m
      induction m with
      | zero => exact ⟨hle, rfl⟩
      | succ m ih =>
        rw [Function.iterate_succ_apply']
        have step := router_rc_le env ((router_node_enhanced env)^[m] s) (ih.2 ▸ ih.1)
        have hmx : mxOf env (router_node_enhanced env ((router_node_enhanced env)^[m] s))
            = mxOf env ((router_node_enhanced env)^[m] s) := by
          simp [mxOf, router_max_refinements_eq]
        exact ⟨by rw [← ih.2, ← hmx]; exact step, by rw [hmx, ih.2]⟩
    exact (key n).1

/-- C5 witness: three router steps from a failing state with counter 0 and
cap 1 leave the counter within the cap. -/
theorem router_refinement_count_bounded_witness :
    rcOf ((router_node_enhanced defaultEnv)^[3] iterStartState) ≤ mxOf defaultEnv iterStartState :=
  (router_refinement_count_bounded defaultEnv iterStartState (by decide) (by decide)).2.2
    (by decide) 3

end PostGen

namespace Session

/-- Helper: splitting `a ++ sep :: b` when `a` carries no separator yields
`a` as the first piece followed by the split of `b`. -/
theorem splitOnChar_append_of_not_mem (sep : Char) (a b : List Char)
    (h : ∀ c ∈ a, c ≠ sep) : splitOnChar sep (a ++ sep :: b) = a :: splitOnChar sep b := by
  induction a with
  | nil => simp [splitOnChar]
  | cons c a ih =>
    have hc : c ≠ sep := h c (by simp)
    have ih' := ih (fun x hx => h x (by simp [hx]))
    simp only [List.cons_append, splitOnChar, if_neg hc, List.append_eq, ih']

/-- Helper: the first piece of splitting `uid ++ '-' :: b` on hyphens is
the prefix of `uid` before its first hyphen. -/
theorem splitOnChar_head (uid b : List Char) :
    ∃ t, splitOnChar '-' (uid ++ '-' :: b)
      = uid.takeWhile (fun c => c != '-') :: t := by
  induction uid with
  | nil => exact ⟨splitOnChar '-' b, by simp [splitOnChar]⟩
  | cons c u ih =>
    obtain ⟨t, ht⟩ := ih
    by_cases hc : c = '-'
    · subst hc
      exact ⟨splitOnChar '-' (u ++ '-' :: b), by simp [splitOnChar, List.takeWhile]⟩
    · refine ⟨t, ?_⟩
      have hbc : (c != '-') = true := by simp [hc]
      simp only [List.cons_append, splitOnChar, if_neg hc, List.append_eq, ht,
        List.takeWhile_cons, hbc, if_true]

/-- C10: recovering the user id from a session id built by the session
endpoint always succeeds (no index error) and returns the prefix of the
original user id up to its first hyphen; it equals the original user id
exactly when the user id contains no hyphen, so hyphenated user ids
round-trip to a silently truncated value. -/
theorem session_user_id_roundtrip (user_id hex : List Char) :
    extract_user_id (create_session_id user_id hex)
      = some (user_id.takeWhile (fun c => c != '-'))
    ∧ (extract_user_id (create_session_id user_id hex) = some user_id ↔ '-' ∉ user_id) := by
  have hsession : ∀ c ∈ "session".data, c ≠ '-' := by decide
  have h1 := splitOnChar_append_of_not_mem '-' ("session".data) (user_id ++ '-' :: hex) hsession
  obtain ⟨t, ht⟩ := splitOnChar_head user_id hex
  have hfirst : extract_user_id (create_session_id user_id hex)
      = some (user_id.takeWhile (fun c => c != '-')) := by
    unfold extract_user_id create_session_id
    rw [h1, ht]
    rfl
  refine ⟨hfirst, ?_⟩
  rw [hfirst]
  constructor
  · intro hsome hm
    have heq := Option.some.inj hsome
    have hall := List.takeWhile_eq_self_iff.mp heq
    have := hall '-' hm
    simp at this
  · intro hnm
    have hall : ∀ x ∈ user_id, (fun c => c != '-') x = true := by
      intro x hx
      simp only [bne_iff_ne, ne_eq]
      intro heq
      exact hnm (heq ▸ hx)
    rw [List.takeWhile_eq_self_iff.mpr hall]

end Session
